import Mathlib

/-!
Verification development for the RustyCore BLE session engine
(CoreBluetooth backend).  The definitions below are shallow embeddings of
the Rust source under `src/`:

* `ServiceResolver` / `AdvertisementResolver` — the pending-operation
  registries of `src/corebluetooth/objc_bindings/mod.rs`.  A
  `tokio::sync::oneshot::Sender` is represented by an opaque numeric
  identifier `SenderId`; a `HashMap<Uuid, Sender>` is represented by a
  duplicate-key-free association list with the insert-replaces semantics
  of `HashMap::insert`.
* `PeripheralManager` command handlers (`start_advertising`,
  `add_service`, `update_characteristic`) from
  `src/corebluetooth/objc_bindings/peripheral_manager_cb.rs`, and the
  delegate waits (`ensure_advertisement_started`, `ensure_service_added`)
  from `peripheral_manager_delegate_cb.rs`.  Waiting with a 5-second
  timeout on a oneshot receiver is embedded by passing the outcome of the
  wait (`AwaitOutcome`) explicitly.
* the ATT read/write indication responders (`send_read_request`,
  `send_write_request`) of `peripheral_manager_delegate_cb.rs`;
* the peripheral-session draft code of `peripheral_cb.rs`
  (`check_discovered`, `confirm_disconnect`) together with the
  characteristic-map construction of `peripheral_delegate_cb.rs`;
* `convert_state` of `central_manager_delegate_cb.rs` against the public
  `CentralState` of `src/api/central_event.rs`;
* the short-UUID helpers of `mac_extensions_cb.rs`, with hexadecimal
  strings embedded as their big-endian digit lists (hyphens in the long
  form sit at fixed positions and carry no information);
* the discovery-callback event emission of
  `central_manager_delegate_cb.rs`.
-/

namespace RustyCore

/-- A 128-bit UUID value, kept as a natural number. -/
abbrev Uuid : Type := Nat

/-- Opaque identity of a `tokio::sync::oneshot::Sender` reply channel. -/
abbrev SenderId : Type := Nat

/-! ### Association lists with `HashMap::insert` semantics -/

/-- `HashMap::insert`: if the key is present, replace its value in place,
otherwise add a new entry.  (`src` uses `std::collections::HashMap`; order
of the entries is irrelevant to every lookup below.) -/
def insertHM {α : Type} (m : List (Uuid × α)) (k : Uuid) (v : α) :
    List (Uuid × α) :=
  if m.any (fun p => p.1 = k) then
    m.map (fun p => if p.1 = k then (k, v) else p)
  else
    m ++ [(k, v)]

/-- `HashMap::get`/`contains_key` style lookup. -/
def lookupHM {α : Type} (m : List (Uuid × α)) (k : Uuid) : Option α :=
  (m.find? (fun p => p.1 = k)).map (fun p => p.2)

/-- `HashMap::remove`: drop the entry for `k`, returning it. -/
def removeHM {α : Type} (m : List (Uuid × α)) (k : Uuid) :
    Option α × List (Uuid × α) :=
  (lookupHM m k, m.filter (fun p => ¬ p.1 = k))

/-! ### `ServiceResolver` and `AdvertisementResolver`
(`src/corebluetooth/objc_bindings/mod.rs`) -/

/-- `pub struct ServiceResolver(HashMap<Uuid, oneshot::Sender<Option<String>>>)`. -/
structure ServiceResolver where
  entries : List (Uuid × SenderId)
deriving Repr, DecidableEq

namespace ServiceResolver

/-- `ServiceResolver::new`. -/
def new : ServiceResolver := ⟨[]⟩

/-- `ServiceResolver::is_waiting_for`: `self.0.contains_key(service_uuid)`. -/
def is_waiting_for (r : ServiceResolver) (service_uuid : Uuid) : Bool :=
  r.entries.any (fun p => p.1 = service_uuid)

/-- `ServiceResolver::has_pending`: `!self.0.is_empty()`. -/
def has_pending (r : ServiceResolver) : Bool :=
  ¬ r.entries.isEmpty

/-- `ServiceResolver::register`: `self.0.insert(service_uuid, sender)` —
an unconditional `HashMap::insert`, which replaces any existing entry. -/
def register (r : ServiceResolver) (service_uuid : Uuid)
    (sender : SenderId) : ServiceResolver :=
  ⟨insertHM r.entries service_uuid sender⟩

/-- `ServiceResolver::take`: `self.0.remove(service_uuid)`. -/
def take (r : ServiceResolver) (service_uuid : Uuid) :
    Option SenderId × ServiceResolver :=
  let res := removeHM r.entries service_uuid
  (res.1, ⟨res.2⟩)

/-- `ServiceResolver::cancel`: `self.0.remove(service_uuid).is_some()`. -/
def cancel (r : ServiceResolver) (service_uuid : Uuid) :
    Bool × ServiceResolver :=
  let res := removeHM r.entries service_uuid
  (res.1.isSome, ⟨res.2⟩)

/-- `ServiceResolver::count`: `self.0.len()`. -/
def count (r : ServiceResolver) : Nat :=
  r.entries.length

end ServiceResolver

/-- `pub struct AdvertisementResolver(Option<oneshot::Sender<Option<String>>>)`. -/
structure AdvertisementResolver where
  slot : Option SenderId
deriving Repr, DecidableEq

namespace AdvertisementResolver

/-- `AdvertisementResolver::new`. -/
def new : AdvertisementResolver := ⟨none⟩

/-- `AdvertisementResolver::is_waiting`: `self.0.is_some()`. -/
def is_waiting (r : AdvertisementResolver) : Bool :=
  r.slot.isSome

/-- `AdvertisementResolver::register`: `self.0 = Some(sender)` — an
unconditional overwrite of the single slot. -/
def register (r : AdvertisementResolver) (sender : SenderId) :
    AdvertisementResolver :=
  ⟨some sender⟩

/-- `AdvertisementResolver::take`: `self.0.take()`. -/
def take (r : AdvertisementResolver) : Option SenderId × AdvertisementResolver :=
  (r.slot, ⟨none⟩)

/-- `AdvertisementResolver::cancel`: `self.0 = None`. -/
def cancel (r : AdvertisementResolver) : AdvertisementResolver :=
  ⟨none⟩

end AdvertisementResolver

/-! ### Errors and awaited outcomes -/

/-- `crate::Error` as used in this backend: every construction site calls
`Error::from_string(description, ..)`, so the error is its description
string.  (The definition of `Error` itself lives outside `src/`; only the
description is observable here.) -/
structure Error where
  description : String
deriving Repr, DecidableEq

/-- Outcome of `timeout(Duration::from_secs(5), receiver).await` on a
oneshot receiver: the deadline elapsed, the sender was dropped
(`RecvError`), or a value `Option<String>` was received. -/
inductive AwaitOutcome where
  | elapsed
  | recvError
  | received (value : Option String)
deriving Repr, DecidableEq

/-- The fixed deadline of `ensure_advertisement_started` and
`ensure_service_added`: `Duration::from_secs(5)`. -/
def ensureTimeoutSecs : Nat := 5

/-! ### `PeripheralManagerDelegate` waits
(`src/corebluetooth/objc_bindings/peripheral_manager_delegate_cb.rs`) -/

/-- `PeripheralManagerDelegate::resolve_event` (lines 253-281): maps the
awaited outcome to the caller's `Result<(), Error>`. -/
def resolve_event (event : AwaitOutcome) : Except Error Unit :=
  match event with
  | .elapsed => .error ⟨"Timeout waiting for event"⟩
  | .recvError => .error ⟨"Channel error while waiting"⟩
  | .received (some e) => .error ⟨e⟩
  | .received none => .ok ()

/-- `PeripheralManagerDelegate::ensure_advertisement_started`: registers a
fresh oneshot sender in the advertisement resolver, awaits the receiver
under the 5-second timeout, then unconditionally cancels the registration
and resolves the outcome.  The awaited outcome is passed explicitly. -/
def ensure_advertisement_started (r : AdvertisementResolver)
    (sender : SenderId) (outcome : AwaitOutcome) :
    AdvertisementResolver × Except Error Unit :=
  let r1 := r.register sender
  let r2 := r1.cancel
  (r2, resolve_event outcome)

/-- `PeripheralManagerDelegate::ensure_service_added`: registers a fresh
oneshot sender under the service UUID, awaits under the 5-second timeout,
then cancels that UUID's registration and resolves the outcome. -/
def ensure_service_added (r : ServiceResolver) (service : Uuid)
    (sender : SenderId) (outcome : AwaitOutcome) :
    ServiceResolver × Except Error Unit :=
  let r1 := r.register service sender
  let r2 := (r1.cancel service).2
  (r2, resolve_event outcome)

/-! ### `PeripheralManager` command handlers
(`src/corebluetooth/objc_bindings/peripheral_manager_cb.rs`) -/

/-- A characteristic as published through `AddService`
(`src/api/characteristic.rs`; only the fields this development observes). -/
structure Characteristic where
  uuid : Uuid
  properties : List Nat
deriving Repr, DecidableEq

/-- A GATT service as passed to `AddService` (`src/api/service.rs` is not
present under `src/`; the fields are exactly the ones `add_service`
reads: `uuid`, `primary`, `characteristics`). -/
structure Service where
  uuid : Uuid
  primary : Bool
  characteristics : List Characteristic
deriving Repr, DecidableEq

/-- Calls issued to the native `CBPeripheralManager` collaborator. -/
inductive NativeCall where
  | startAdvertising (name : String) (uuids : List Uuid)
  | addService (service_uuid : Uuid)
  | updateValueForCharacteristic (characteristic : Uuid) (value : List Nat)
deriving Repr, DecidableEq

/-- Mutable state of `PeripheralManager` together with its delegate's two
resolvers (held behind `Arc<Mutex<..>>` in the delegate ivars). -/
structure PMState where
  cached_characteristics : List (Uuid × Characteristic)
  services_resolver : ServiceResolver
  advertisement_resolver : AdvertisementResolver
deriving Repr, DecidableEq

/-- `PeripheralManager::start_advertising` (lines 115-150): rejected with
"Already in progress" while the delegate's advertisement resolver is
occupied; otherwise issues the native `startAdvertising` call and awaits
`ensure_advertisement_started`. -/
def start_advertising (s : PMState) (name : String) (uuids : List Uuid)
    (sender : SenderId) (outcome : AwaitOutcome) :
    PMState × List NativeCall × Except Error Unit :=
  if s.advertisement_resolver.is_waiting then
    (s, [], .error ⟨"Already in progress"⟩)
  else
    let res := ensure_advertisement_started s.advertisement_resolver sender outcome
    ({ s with advertisement_resolver := res.1 },
      [NativeCall.startAdvertising name uuids], res.2)

/-- `PeripheralManager::add_service` (lines 182-220): rejected with
"Already in progress" while the delegate's service resolver holds an entry
for this service UUID; otherwise caches every characteristic of the
service, issues the native `addService` call and awaits
`ensure_service_added`. -/
def add_service (s : PMState) (service : Service) (sender : SenderId)
    (outcome : AwaitOutcome) :
    PMState × List NativeCall × Except Error Unit :=
  if s.services_resolver.is_waiting_for service.uuid then
    (s, [], .error ⟨"Already in progress"⟩)
  else
    let cached := service.characteristics.foldl
      (fun m c => insertHM m c.uuid c) s.cached_characteristics
    let res := ensure_service_added s.services_resolver service.uuid sender outcome
    ({ s with cached_characteristics := cached, services_resolver := res.1 },
      [NativeCall.addService service.uuid], res.2)

/-- `PeripheralManager::update_characteristic` (lines 162-178): if the
UUID is in `cached_characteristics`, issue the native
`updateValue_forCharacteristic_onSubscribedCentrals` call; in every case
`return Ok(())`. -/
def update_characteristic (s : PMState) (characteristic : Uuid)
    (value : List Nat) : PMState × List NativeCall × Except Error Unit :=
  match lookupHM s.cached_characteristics characteristic with
  | some _ =>
      (s, [NativeCall.updateValueForCharacteristic characteristic value], .ok ())
  | none => (s, [], .ok ())

/-! ### ATT indication responders
(`src/corebluetooth/objc_bindings/peripheral_manager_delegate_cb.rs`,
`send_read_request` / `send_write_request`) -/

/-- `RequestResponse` (`src/api/peripheral_event.rs`). -/
inductive RequestResponse where
  | Success
  | InvalidHandle
  | RequestNotSupported
  | InvalidOffset
  | UnlikelyError
deriving Repr, DecidableEq

/-- The `CBATTError` codes this backend constructs. -/
inductive CBATTError where
  | Success
  | InvalidHandle
  | RequestNotSupported
  | InvalidOffset
  | UnlikelyError
deriving Repr, DecidableEq

/-- `RequestResponse::to_cb_error` (delegate file, lines 368-378). -/
def RequestResponse.to_cb_error (r : RequestResponse) : CBATTError :=
  match r with
  | .Success => .Success
  | .InvalidHandle => .InvalidHandle
  | .RequestNotSupported => .RequestNotSupported
  | .InvalidOffset => .InvalidOffset
  | .UnlikelyError => .UnlikelyError

/-- `ReadRequestResponse` (`src/api/peripheral_event.rs`). -/
structure ReadRequestResponse where
  value : List Nat
  response : RequestResponse
deriving Repr, DecidableEq

/-- `WriteRequestResponse` (`src/api/peripheral_event.rs`). -/
structure WriteRequestResponse where
  response : RequestResponse
deriving Repr, DecidableEq

/-- One `respondToRequest_withResult` call sent back to the native stack,
together with the value installed on the request beforehand (read path
only). -/
structure AttReply where
  result : CBATTError
  valueSet : Option (List Nat)
deriving Repr, DecidableEq

/-- `PeripheralManagerDelegate::send_read_request` (lines 295-326).
`eventSent` is whether `sender.send(PeripheralEvent::ReadRequest..)`
succeeded (it fails when the actor's event channel is closed; the code
then logs and returns without responding).  `reply` is the outcome of
awaiting the single-use responder: `none` when the responder was dropped
unanswered.  The returned list holds every `respondToRequest_withResult`
call made for this indication. -/
def send_read_request (eventSent : Bool)
    (reply : Option ReadRequestResponse) : List AttReply :=
  if eventSent then
    match reply with
    | some result => [⟨result.response.to_cb_error, some result.value⟩]
    | none => [⟨CBATTError.InvalidHandle, none⟩]
  else
    []

/-- `PeripheralManagerDelegate::send_write_request` (lines 328-361), with
the same reading of `eventSent` and `reply` as `send_read_request`. -/
def send_write_request (eventSent : Bool)
    (reply : Option WriteRequestResponse) : List AttReply :=
  if eventSent then
    match reply with
    | some result => [⟨result.response.to_cb_error, none⟩]
    | none => [⟨CBATTError.InvalidHandle, none⟩]
  else
    []

/-! ### Peripheral session (`src/corebluetooth/objc_bindings/peripheral_cb.rs`)

`check_discovered` and `confirm_disconnect` are draft code: they refer to
fields (`self.services`, `self.disconnected_future_state`) and types
(`CharacteristicInternal`, `CoreBluetoothReply`) that the `Peripheral`
struct of the same file does not declare, so the file does not compile as
written.  The embedding keeps both the fields the struct declares (the
resolver maps, lines 31-38) and the draft fields those two methods use,
so that the methods can be evaluated exactly as written.  The line
`self.peripheral.readValueForDescriptor(descriptor)` inside
`confirm_disconnect` names a variable `descriptor` that is bound nowhere;
it has no expressible meaning and is omitted. -/

/-- The draft `CoreBluetoothReply` values `confirm_disconnect` sends. -/
inductive CoreBluetoothReply where
  | Ok
  | Err (message : String)
deriving Repr, DecidableEq

/-- The draft `CharacteristicInternal`: per-characteristic pending future
states, as destructured by `confirm_disconnect`, plus the fields
`check_discovered` reads (`descriptors`, `properties`). -/
structure CharacteristicInternal where
  properties : List Nat
  descriptors : List Uuid
  read_future_state : List SenderId
  write_future_state : List SenderId
  subscribe_future_state : List SenderId
  unsubscribe_future_state : List SenderId
deriving Repr, DecidableEq

/-- The draft per-service entry of `self.services`: the retained
`CBService` contributes only `isPrimary()` here. -/
structure ServiceInternal where
  primary : Bool
  characteristics : List (Uuid × CharacteristicInternal)
deriving Repr, DecidableEq

/-- State of one `Peripheral` session: the resolver maps the struct
declares (lines 31-38) together with the draft fields used by
`check_discovered` / `confirm_disconnect`. -/
structure PeripheralState where
  delegate_waiting_services : List Uuid
  services : List (Uuid × ServiceInternal)
  disconnected_future_state : Option SenderId
  service_discovery_resolver : Option SenderId
  characteristic_discovery_resolver : List (Uuid × SenderId)
  descriptor_discovery_resolver : List ((Uuid × Uuid) × SenderId)
  read_resolver : List (Uuid × SenderId)
  write_resolver : List (Uuid × SenderId)
  subscribe_resolver : List (Uuid × SenderId)
deriving Repr, DecidableEq

/-- The `Descriptor` snapshot built inside `check_discovered`. -/
structure SnapshotDescriptor where
  uuid : Uuid
  service_uuid : Uuid
  characteristic_uuid : Uuid
deriving Repr, DecidableEq

/-- The `Characteristic` snapshot built inside `check_discovered`. -/
structure SnapshotCharacteristic where
  uuid : Uuid
  service_uuid : Uuid
  descriptors : List SnapshotDescriptor
  properties : List Nat
deriving Repr, DecidableEq

/-- The `Service` snapshot built inside `check_discovered`. -/
structure SnapshotService where
  uuid : Uuid
  primary : Bool
  characteristics : List SnapshotCharacteristic
deriving Repr, DecidableEq

/-- The service-tree snapshot computation of `check_discovered`
(lines 187-215): map every cached service to a `Service` value carrying
its characteristics and their descriptors. -/
def build_service_snapshot (services : List (Uuid × ServiceInternal)) :
    List SnapshotService :=
  services.map (fun p =>
    { uuid := p.1
      primary := p.2.primary
      characteristics := p.2.characteristics.map (fun c =>
        { uuid := c.1
          service_uuid := p.1
          descriptors := c.2.descriptors.map (fun d =>
            { uuid := d, service_uuid := p.1, characteristic_uuid := c.1 })
          properties := c.2.properties }) })

/-- `Peripheral::check_discovered` (lines 175-216): panics (`.error`)
when the delegate still waits for this service; otherwise computes the
service-tree snapshot, binds it to the local `services` — and stops.  The
second component of the result is the list of replies sent to waiting
callers: the source sends none, and the computed snapshot is dropped. -/
def check_discovered (s : PeripheralState) (service_uuid : Uuid) :
    Except String (PeripheralState × List (SenderId × CoreBluetoothReply)) :=
  if s.delegate_waiting_services.contains service_uuid then
    .error "We should still have a future at this point!"
  else
    let _services := build_service_snapshot s.services
    .ok (s, [])

/-- `Peripheral::confirm_disconnect` (lines 218-251): takes and fulfils
the disconnected future if present, then walks `self.services` and sets
the reply `Err("Device disconnected")` on each characteristic's
read/write/subscribe/unsubscribe future states.  `set_reply` on a shared
future state does not remove entries from any map, and none of the
struct's resolver maps is mentioned.  Returns the new state and every
reply sent. -/
def confirm_disconnect (s : PeripheralState) :
    PeripheralState × List (SenderId × CoreBluetoothReply) :=
  let deviceReply : List (SenderId × CoreBluetoothReply) :=
    match s.disconnected_future_state with
    | some f => [(f, CoreBluetoothReply.Ok)]
    | none => []
  let disconnectError := CoreBluetoothReply.Err "Device disconnected"
  let charReplies : List (SenderId × CoreBluetoothReply) :=
    s.services.flatMap (fun p =>
      p.2.characteristics.flatMap (fun c =>
        (c.2.read_future_state ++ c.2.write_future_state ++
         c.2.subscribe_future_state ++ c.2.unsubscribe_future_state).map
          (fun f => (f, disconnectError))))
  ({ s with disconnected_future_state := none }, deviceReply ++ charReplies)

/-! ### Characteristic discovery
(`peripheral_delegate_cb.rs` lines 89-121, `peripheral_cb.rs` lines 131-144) -/

/-- The characteristic-map construction of
`delegate_peripheral_diddiscovercharacteristicsforservice_error`: iterate
the reported characteristics in order, `HashMap::insert` each under its
UUID — an insert for an already-present UUID replaces the stored value. -/
def build_characteristic_map (chars : List Characteristic) :
    List (Uuid × Characteristic) :=
  chars.foldl (fun m c => insertHM m c.uuid c) []

/-- `Peripheral::discovered_characteristics`: issue a native
`discoverDescriptorsForCharacteristic` call per entry, then
`self.cached_characteristics.extend(characteristics)`. -/
def discovered_characteristics (cached : List (Uuid × Characteristic))
    (characteristics : List (Uuid × Characteristic)) :
    List (Uuid × Characteristic) × List Uuid :=
  (characteristics.foldl (fun m p => insertHM m p.1 p.2) cached,
   characteristics.map (fun p => p.1))

/-! ### Adapter state conversion
(`central_manager_delegate_cb.rs` lines 269-282 against
`src/api/central_event.rs` lines 42-47) -/

/-- `CBManagerState`: the native adapter states, plus the unexpected
values the converter's wildcard arm absorbs. -/
inductive CBManagerState where
  | Unknown
  | Resetting
  | Unsupported
  | Unauthorized
  | PoweredOff
  | PoweredOn
  | other (raw : Int)
deriving Repr, DecidableEq

/-- The public `CentralState` exactly as `src/api/central_event.rs`
declares it: `Unknown = 0, PoweredOn = 1, PoweredOff = 2` — three
variants. -/
inductive ApiCentralState where
  | Unknown
  | PoweredOn
  | PoweredOff
deriving Repr, DecidableEq

/-- The declared variant names of the public `CentralState`. -/
def ApiCentralState.name (s : ApiCentralState) : String :=
  match s with
  | .Unknown => "Unknown"
  | .PoweredOn => "PoweredOn"
  | .PoweredOff => "PoweredOff"

/-- `convert_state`, by the name of the `CentralState` variant each match
arm constructs (the arms for `Resetting`, `Unsupported` and
`Unauthorized` name variants the public `CentralState` does not declare,
so the function cannot be embedded as a map into `ApiCentralState`). -/
def convert_state_variant (cb_state : CBManagerState) : String :=
  match cb_state with
  | .Unknown => "Unknown"
  | .Resetting => "Resetting"
  | .Unsupported => "Unsupported"
  | .Unauthorized => "Unauthorized"
  | .PoweredOff => "PoweredOff"
  | .PoweredOn => "PoweredOn"
  | .other _ => "Unknown"

/-! ### Discovery callback event emission
(`central_manager_delegate_cb.rs` lines 116-217) -/

/-- The `CentralEvent` values the discovery callback constructs, with the
field shapes used at the construction sites. -/
inductive CentralEventM where
  | deviceDiscovered (server : Uuid) (name : String) (rssi : Int)
  | manufacturerDataAdvertisement (server : Uuid) (manufacturer_id : Nat)
      (manufacturer_data : List Nat)
  | serviceDataAdvertisement (server : Uuid)
      (service_data : List (Uuid × List Nat))
  | servicesAdvertisement (server : Uuid) (services : List Uuid)
deriving Repr, DecidableEq

/-- The advertisement dictionary, keyed by the four keys the callback
reads.  Manufacturer data is its byte list. -/
structure AdvData where
  local_name : Option String
  manufacturer_data : Option (List Nat)
  service_data : Option (List (Uuid × List Nat))
  service_uuids : Option (List Uuid)
deriving Repr, DecidableEq

/-- `u16::from_le_bytes([b0, b1])`: little-endian, low byte first. -/
def u16_from_le_bytes (b0 b1 : Nat) : Nat :=
  (b0 % 256) + 256 * (b1 % 256)

/-- `delegate_centralmanager_diddiscoverperipheral_advertisementdata_rssi`
(lines 116-217): always emit `DeviceDiscovered` (name defaulting to
"Unknown"); if manufacturer data of length `>= 2` is present, split it
after two bytes and emit one `ManufacturerDataAdvertisement` (the
`b0 :: b1 :: rest` match is `len() >= 2` plus `split_at(2)`); then the
service-data and service-UUID-list events when those keys are present. -/
def did_discover_peripheral (server : Uuid) (adv : AdvData) (rssi : Int) :
    List CentralEventM :=
  [CentralEventM.deviceDiscovered server (adv.local_name.getD "Unknown") rssi]
  ++ (match adv.manufacturer_data with
      | some (b0 :: b1 :: rest) =>
          [CentralEventM.manufacturerDataAdvertisement server
            (u16_from_le_bytes b0 b1) rest]
      | some _ => []
      | none => [])
  ++ (match adv.service_data with
      | some sd => [CentralEventM.serviceDataAdvertisement server sd]
      | none => [])
  ++ (match adv.service_uuids with
      | some us => [CentralEventM.servicesAdvertisement server us]
      | none => [])

/-- Discriminator for `ManufacturerDataAdvertisement` events. -/
def CentralEventM.isManufacturerData (e : CentralEventM) : Bool :=
  match e with
  | .manufacturerDataAdvertisement _ _ _ => true
  | _ => false

/-! ### Short UUID helpers (`mac_extensions_cb.rs`, `CbuuidConvert for Uuid`)

UUID strings are embedded as their lists of hexadecimal digit values in
the order written (big-endian).  The canonical 36-character hyphenated
form carries its hyphens at four fixed positions, so its information
content is exactly its 32 digits; a 4- or 8-character short form is its
4 or 8 digits.  `Uuid::parse_str` accepts only the canonical forms and is
embedded as: exactly 32 digits, each a valid hex digit. -/

/-- Little-endian fixed-width hexadecimal digits of `n`. -/
def hexLE : Nat → Nat → List Nat
  | 0, _ => []
  | w + 1, n => n % 16 :: hexLE w (n / 16)

/-- Value of a little-endian hex digit list. -/
def valLE (ds : List Nat) : Nat :=
  ds.foldr (fun d a => d + 16 * a) 0

/-- Big-endian fixed-width hexadecimal digits — the digits of
`format!("\x7b:04x\x7d")` and friends in string order. -/
def hexBE (w n : Nat) : List Nat :=
  (hexLE w n).reverse

/-- Value of a big-endian hex digit list. -/
def valBE (ds : List Nat) : Nat :=
  valLE ds.reverse

/-- `BLUETOOTH_BASE_LOWER_96`: `0x0000_1000_8000_00805F9B34FB`. -/
def BLUETOOTH_BASE_LOWER_96 : Nat := 0x00001000800000805F9B34FB

/-- The digits of the literal suffix `"0000-1000-8000-00805f9b34fb"` that
`from_string` appends when expanding a short form (hyphens dropped). -/
def base96Digits : List Nat :=
  [0, 0, 0, 0, 1, 0, 0, 0, 8, 0, 0, 0, 0, 0, 8, 0, 5, 15, 9, 11, 3, 4, 15, 11]

/-- `Uuid::parse_str`: succeeds exactly on a canonical form — 32 valid
hex digits (a simple or hyphenated canonical string). -/
def parse_str (s : List Nat) : Option Nat :=
  if s.length = 32 ∧ s.all (fun d => d < 16) then some (valBE s) else none

/-- `<Uuid as CbuuidConvert>::to_short_string` (lines 91-105): when the
lower 96 bits equal the Bluetooth base, format the 32-bit assigned value
as 4 hex digits (`<= 0xFFFF`) or 8 hex digits; otherwise the full
canonical 32-digit form of `self.to_string()`. -/
def to_short_string (u : Nat) : List Nat :=
  let lower_96_bits := u % 2 ^ 96
  if lower_96_bits = BLUETOOTH_BASE_LOWER_96 then
    let assigned_value := u / 2 ^ 96
    if assigned_value ≤ 0xFFFF then hexBE 4 assigned_value
    else hexBE 8 assigned_value
  else hexBE 32 u

/-- `<Uuid as CbuuidConvert>::from_string` (lines 76-89): try
`Uuid::parse_str` first; on failure expand a 4-character short form with
a `"0000"` prefix and the base suffix, an 8-character short form with the
base suffix alone, and re-parse (the unwrap panic on a still-invalid
string is `none`). -/
def from_string (s : List Nat) : Option Nat :=
  match parse_str s with
  | some u => some u
  | none =>
      let long :=
        if s.length = 4 then [0, 0, 0, 0] ++ s ++ base96Digits
        else if s.length = 8 then s ++ base96Digits
        else s
      parse_str long

/-- `<Uuid as CbuuidConvert>::from_short` (lines 70-73). -/
def from_short (short_uuid : Nat) : Nat :=
  (short_uuid % 2 ^ 32) * 2 ^ 96 + BLUETOOTH_BASE_LOWER_96

/-! ## Helper lemmas -/

theorem find?_map_replace {α : Type} (m : List (Uuid × α)) (k : Uuid)
    (v : α) (u : Uuid) :
    List.find? (fun p => p.1 = u)
        (m.map (fun p => if p.1 = k then (k, v) else p)) =
      if u = k then
        (if m.any (fun p => p.1 = k) then some (k, v) else none)
      else List.find? (fun p => p.1 = u) m := by
  induction m with
  | nil => by_cases h : u = k <;> simp [h]
  | cons p m ih =>
      by_cases hpk : p.1 = k
      · by_cases huk : u = k
        · subst huk; simp [List.find?, hpk]
        · have hpu : ¬ p.1 = u := fun h => huk (by rw [← h, hpk])
          simp only [List.map_cons, List.find?, hpk, if_pos rfl]
          simp [Ne.symm huk, hpu, ih, huk]
      · by_cases hpu : p.1 = u
        · by_cases huk : u = k
          · exact absurd (hpu.trans huk) hpk
          · simp [List.find?, hpk, hpu, huk]
        · have hdk : (decide (p.1 = k)) = false := by simp [hpk]
          simp only [List.map_cons, if_neg hpk, List.find?, List.any_cons,
            hdk, Bool.false_or]
          simp [hpu, ih]

theorem lookupHM_insertHM {α : Type} (m : List (Uuid × α)) (k : Uuid)
    (v : α) (u : Uuid) :
    lookupHM (insertHM m k v) u = if u = k then some v else lookupHM m u := by
  unfold insertHM lookupHM
  by_cases hany : m.any (fun p => p.1 = k) = true
  · simp only [hany, if_pos, find?_map_replace]
    by_cases huk : u = k <;> simp [huk, hany]
  · simp only [hany, if_neg, Bool.not_eq_true, List.find?_append]
    by_cases huk : u = k
    · subst huk
      have hnone : List.find? (fun p => p.1 = u) m = none := by
        rw [List.find?_eq_none]
        intro x hx
        simp only [decide_eq_true_eq]
        intro hxk
        exact hany (List.any_eq_true.mpr ⟨x, hx, by simpa using hxk⟩)
      simp [hnone, List.find?]
    · have : List.find? (fun p => p.1 = u) [(k, v)] = none := by
        simp [List.find?, Ne.symm huk]
      simp [this, huk]

/-! ## Claim C1 -/

/-- C1, counterexample. The claim says a second `register` for a key with
an outstanding entry is rejected with "already in progress" and does not
replace the existing entry.  In the code, `ServiceResolver::register` and
`AdvertisementResolver::register` are unconditional inserts with no error
return: registering sender 20 for key 1 while sender 10 is outstanding for
key 1 silently replaces the entry, and `take` afterwards yields the second
caller's channel — the first caller's reply channel is overwritten. -/
theorem serviceResolver_register_overwrites :
    ((ServiceResolver.new.register 1 10).register 1 20).take 1 =
        (some 20, ServiceResolver.new) ∧
    ((ServiceResolver.new.register 1 10).register 1 20).count = 1 ∧
    ((AdvertisementResolver.new.register 10).register 20).take =
        (some 20, AdvertisementResolver.new) := by
  decide

/-- C1, amended. The resolvers' `register` itself replaces silently; the
"already in progress" rejection lives one layer up, in the
`PeripheralManager` command handlers: while the respective resolver is
occupied for the key, `add_service` (key: the service UUID) and
`start_advertising` (key: the single advertising slot) return the error
"Already in progress" without calling `register`, leaving state, resolver
entry and native-call log untouched. -/
theorem rejection_happens_in_manager_commands (s : PMState)
    (service : Service) (name : String) (uuids : List Uuid)
    (sender : SenderId) (o : AwaitOutcome)
    (hS : s.services_resolver.is_waiting_for service.uuid = true)
    (hA : s.advertisement_resolver.is_waiting = true) :
    add_service s service sender o = (s, [], .error ⟨"Already in progress"⟩) ∧
    start_advertising s name uuids sender o =
      (s, [], .error ⟨"Already in progress"⟩) := by
  constructor
  · simp [add_service, hS]
  · simp [start_advertising, hA]

/-- C1, witness for `rejection_happens_in_manager_commands` at a state
with sender 10 outstanding for service 5 and sender 11 holding the
advertising slot. -/
theorem rejection_happens_in_manager_commands_witness :
    add_service ⟨[], ⟨[(5, 10)]⟩, ⟨some 11⟩⟩ ⟨5, true, []⟩ 7 .elapsed =
      (⟨[], ⟨[(5, 10)]⟩, ⟨some 11⟩⟩, [], .error ⟨"Already in progress"⟩) ∧
    start_advertising ⟨[], ⟨[(5, 10)]⟩, ⟨some 11⟩⟩ "dev" [] 7 .elapsed =
      (⟨[], ⟨[(5, 10)]⟩, ⟨some 11⟩⟩, [], .error ⟨"Already in progress"⟩) :=
  rejection_happens_in_manager_commands ⟨[], ⟨[(5, 10)]⟩, ⟨some 11⟩⟩
    ⟨5, true, []⟩ "dev" [] 7 .elapsed (by decide) (by decide)

/-! ## Claim C2 -/

/-- C2, counterexample. The claim says every inbound ATT indication
delivered to the delegate gets exactly one protocol-level response.  When
`sender.send(PeripheralEvent::ReadRequest/WriteRequest ..)` fails (the
actor's event channel is closed), both `send_read_request` and
`send_write_request` log and return before `respondToRequest_withResult`,
so that indication gets zero responses, not one. -/
theorem indication_with_closed_channel_gets_no_response :
    (send_write_request false none).length ≠ 1 ∧
    (send_read_request false none).length ≠ 1 ∧
    send_write_request false none = [] ∧
    send_read_request false none = [] := by
  decide

/-- C2, amended. For every indication whose ReadRequest/WriteRequest
event is successfully handed to the actor's event channel, exactly one
`respondToRequest_withResult` call is sent; when the single-use responder
is dropped without an answer the code defaults to `InvalidHandle`, and
when it is answered the reply carries the caller's result code (and, on
the read path, the caller's value). -/
theorem one_response_per_delivered_indication
    (rr : Option ReadRequestResponse) (wr : Option WriteRequestResponse) :
    (send_read_request true rr).length = 1 ∧
    (send_write_request true wr).length = 1 ∧
    send_read_request true none = [⟨CBATTError.InvalidHandle, none⟩] ∧
    send_write_request true none = [⟨CBATTError.InvalidHandle, none⟩] ∧
    (∀ r : ReadRequestResponse,
      send_read_request true (some r) =
        [⟨r.response.to_cb_error, some r.value⟩]) ∧
    (∀ w : WriteRequestResponse,
      send_write_request true (some w) = [⟨w.response.to_cb_error, none⟩]) := by
  refine ⟨?_, ?_, rfl, rfl, fun r => rfl, fun w => rfl⟩
  · cases rr <;> rfl
  · cases wr <;> rfl

/-! ## Claim C7 -/

/-- C7, counterexample. The claim says `UpdateCharacteristic` with a UUID
absent from the cached characteristics returns a `NotFound` error.  With
an empty cache, `update_characteristic` issues no native call and returns
`Ok(())` — a success result, not an error of any kind. -/
theorem update_unknown_characteristic_returns_ok :
    update_characteristic ⟨[], ServiceResolver.new, AdvertisementResolver.new⟩
        5 [1, 2] =
      (⟨[], ServiceResolver.new, AdvertisementResolver.new⟩, [], .ok ()) := by
  rfl

/-- C7, amended. `update_characteristic` with a UUID not present in
`cached_characteristics` silently ignores the request: it issues no
native update call and returns `Ok(())` unchanged — it neither crashes
nor reports `NotFound`. -/
theorem update_unknown_characteristic_silently_ignored (s : PMState)
    (c : Uuid) (value : List Nat)
    (h : lookupHM s.cached_characteristics c = none) :
    update_characteristic s c value = (s, [], .ok ()) := by
  simp [update_characteristic, h]

/-- C7, witness for `update_unknown_characteristic_silently_ignored` on a
cache holding only characteristic 9. -/
theorem update_unknown_characteristic_silently_ignored_witness :
    update_characteristic
        ⟨[(9, ⟨9, [0]⟩)], ServiceResolver.new, AdvertisementResolver.new⟩
        5 [1, 2] =
      (⟨[(9, ⟨9, [0]⟩)], ServiceResolver.new, AdvertisementResolver.new⟩,
        [], .ok ()) :=
  update_unknown_characteristic_silently_ignored
    ⟨[(9, ⟨9, [0]⟩)], ServiceResolver.new, AdvertisementResolver.new⟩
    5 [1, 2] (by decide)

/-! ## Claim C6 -/

theorem cancel_frees_key (r : ServiceResolver) (u : Uuid) :
    ((r.cancel u).2).is_waiting_for u = false := by
  simp only [ServiceResolver.cancel, removeHM, ServiceResolver.is_waiting_for]
  rw [List.any_eq_false]
  intro x hx
  have := (List.mem_filter.mp hx).2
  simpa using this

/-- C6: a `StartAdvertising` or `AddService` command whose await ends in
the elapsed 5-second deadline (`AwaitOutcome.elapsed`) returns the
timeout failure "Timeout waiting for event" and cancels its registry
entry, so the immediately following `StartAdvertising` (resp. `AddService`
for the same service UUID) passes the already-in-progress guard and
issues its native call instead of being rejected. -/
theorem timeout_frees_registry_slot (s : PMState) (name : String)
    (uuids : List Uuid) (svc : Service) (snd1 snd2 snd3 : SenderId)
    (o : AwaitOutcome)
    (hA : s.advertisement_resolver.is_waiting = false)
    (hS : s.services_resolver.is_waiting_for svc.uuid = false) :
    (start_advertising s name uuids snd1 .elapsed).2.2 =
        .error ⟨"Timeout waiting for event"⟩ ∧
    (start_advertising s name uuids snd1
        .elapsed).1.advertisement_resolver.is_waiting = false ∧
    (start_advertising (start_advertising s name uuids snd1 .elapsed).1
        name uuids snd2 o).2.1 = [NativeCall.startAdvertising name uuids] ∧
    (add_service s svc snd1 .elapsed).2.2 =
        .error ⟨"Timeout waiting for event"⟩ ∧
    (add_service s svc snd1
        .elapsed).1.services_resolver.is_waiting_for svc.uuid = false ∧
    (add_service (add_service s svc snd1 .elapsed).1 svc snd3 o).2.1 =
        [NativeCall.addService svc.uuid] ∧
    ensureTimeoutSecs = 5 := by
  have e1 : start_advertising s name uuids snd1 .elapsed =
      ({ s with advertisement_resolver := ⟨none⟩ },
        [NativeCall.startAdvertising name uuids],
        .error ⟨"Timeout waiting for event"⟩) := by
    simp only [start_advertising]
    rw [if_neg (by simp [hA])]
    rfl
  have e2 : add_service s svc snd1 .elapsed =
      ({ s with
          cached_characteristics := svc.characteristics.foldl
            (fun m c => insertHM m c.uuid c) s.cached_characteristics,
          services_resolver :=
            ((s.services_resolver.register svc.uuid snd1).cancel svc.uuid).2 },
        [NativeCall.addService svc.uuid],
        .error ⟨"Timeout waiting for event"⟩) := by
    simp only [add_service]
    rw [if_neg (by simp [hS])]
    rfl
  refine ⟨?_, ?_, ?_, ?_, ?_, ?_, rfl⟩
  · rw [e1]
  · rw [e1]
    rfl
  · rw [e1]
    simp only [start_advertising]
    rw [if_neg (by simp [AdvertisementResolver.is_waiting])]
  · rw [e2]
  · rw [e2]
    exact cancel_frees_key _ _
  · rw [e2]
    simp only [add_service]
    rw [if_neg (by simp [cancel_frees_key])]

/-- C6, witness for `timeout_frees_registry_slot` on the fresh manager
state with empty resolvers. -/
theorem timeout_frees_registry_slot_witness :
    (start_advertising ⟨[], ⟨[]⟩, ⟨none⟩⟩ "dev" [] 1 .elapsed).2.2 =
        .error ⟨"Timeout waiting for event"⟩ ∧
    (start_advertising ⟨[], ⟨[]⟩, ⟨none⟩⟩ "dev" [] 1
        .elapsed).1.advertisement_resolver.is_waiting = false ∧
    (start_advertising (start_advertising ⟨[], ⟨[]⟩, ⟨none⟩⟩ "dev" [] 1
        .elapsed).1 "dev" [] 2 (.received none)).2.1 =
      [NativeCall.startAdvertising "dev" []] ∧
    (add_service ⟨[], ⟨[]⟩, ⟨none⟩⟩ ⟨5, true, []⟩ 1 .elapsed).2.2 =
        .error ⟨"Timeout waiting for event"⟩ ∧
    (add_service ⟨[], ⟨[]⟩, ⟨none⟩⟩ ⟨5, true, []⟩ 1
        .elapsed).1.services_resolver.is_waiting_for 5 = false ∧
    (add_service (add_service ⟨[], ⟨[]⟩, ⟨none⟩⟩ ⟨5, true, []⟩ 1 .elapsed).1
        ⟨5, true, []⟩ 3 (.received none)).2.1 = [NativeCall.addService 5] ∧
    ensureTimeoutSecs = 5 :=
  timeout_frees_registry_slot ⟨[], ⟨[]⟩, ⟨none⟩⟩ "dev" [] ⟨5, true, []⟩
    1 2 3 (.received none) (by decide) (by decide)

/-! ## Claim C5 -/

/-- C5, counterexample. Characteristic properties are encoded as numbers
(`Read` is `0`, `Write` is `1`).  Reporting
`[(uuid 7, [Read]), (uuid 7, [Write])]` for a service stores one
characteristic for UUID 7 carrying the **last**-seen properties
(`[Write]`), because the map is built with `HashMap::insert`, whose
second insert for the same key replaces the first — the claim's
first-occurrence-wins is false. -/
theorem duplicate_characteristic_keeps_last :
    lookupHM (build_characteristic_map [⟨7, [0]⟩, ⟨7, [1]⟩]) 7 =
        some ⟨7, [1]⟩ ∧
    some (⟨7, [1]⟩ : Characteristic) ≠ some ⟨7, [0]⟩ := by
  decide

theorem keys_nodup_insertHM {α : Type} (m : List (Uuid × α)) (k : Uuid)
    (v : α) (h : (m.map (fun p => p.1)).Nodup) :
    (((insertHM m k v).map (fun p => p.1))).Nodup := by
  unfold insertHM
  by_cases hany : m.any (fun p => p.1 = k) = true
  · simp only [hany, if_pos, List.map_map]
    have : ((fun p => p.1) ∘ (fun p : Uuid × α => if p.1 = k then (k, v) else p)) =
        fun p : Uuid × α => p.1 := by
      funext p
      by_cases hp : p.1 = k <;> simp [hp]
    rw [this]
    exact h
  · simp only [hany, if_neg, Bool.not_eq_true, List.map_append,
      List.nodup_append]
    refine ⟨h, by simp, ?_⟩
    intro a ha
    simp only [List.map_cons, List.map_nil, List.mem_singleton]
    intro hak
    subst hak
    rcases List.mem_map.mp ha with ⟨p, hp, hpk⟩
    rw [Bool.not_eq_true, List.any_eq_false] at hany
    exact absurd (by simpa using hpk) (by simpa using hany p hp)

theorem keys_nodup_build_aux (chars : List Characteristic)
    (m : List (Uuid × Characteristic))
    (h : (m.map (fun p => p.1)).Nodup) :
    ((chars.foldl (fun m c => insertHM m c.uuid c) m).map
      (fun p => p.1)).Nodup := by
  induction chars generalizing m with
  | nil => simpa using h
  | cons c chars ih =>
      exact ih (insertHM m c.uuid c) (keys_nodup_insertHM m c.uuid c h)

/-- C5, amended. Recording a reported characteristic list deduplicates by
UUID with the **last** occurrence winning: the built map holds at most
one entry per UUID (its key list has no duplicates), and the entry stored
for a UUID carries the attributes of the last reported characteristic
with that UUID — later duplicates replace earlier ones, they are not
merged. -/
theorem characteristic_dedup_last_occurrence_wins
    (chars : List Characteristic) (u : Uuid) :
    lookupHM (build_characteristic_map chars) u =
        chars.reverse.find? (fun c => c.uuid = u) ∧
    ((build_characteristic_map chars).map (fun p => p.1)).Nodup := by
  constructor
  · induction chars using List.reverseRecOn with
    | nil => simp [build_characteristic_map, lookupHM]
    | append_singleton l c ih =>
        unfold build_characteristic_map at ih ⊢
        rw [List.foldl_append, List.foldl_cons, List.foldl_nil,
          lookupHM_insertHM, List.reverse_append]
        simp only [List.reverse_cons, List.reverse_nil, List.nil_append,
          List.singleton_append, List.find?]
        by_cases h : c.uuid = u
        · simp [h]
        · have : ¬ u = c.uuid := fun he => h he.symm
          simp [h, this, ih]
  · exact keys_nodup_build_aux chars [] (by simp)

/-! ## Claim C8 -/

/-- C8: the claim says the public `CentralState` is exactly the closed
six-variant set and that `convert_state` maps each native state to its
like-named public variant.  The code contradicts itself: `convert_state`
(central_manager_delegate_cb.rs) constructs variants named `Resetting`,
`Unsupported` and `Unauthorized`, but the public `CentralState`
(src/api/central_event.rs) declares only the three variants `Unknown`,
`PoweredOn` and `PoweredOff`, so the native `Resetting`, `Unsupported`
and `Unauthorized` states have no like-named public variant to map to
(and the two files cannot compile together). -/
theorem central_state_variant_set_mismatch :
    convert_state_variant .Resetting = "Resetting" ∧
    convert_state_variant .Unsupported = "Unsupported" ∧
    convert_state_variant .Unauthorized = "Unauthorized" ∧
    (∀ s : ApiCentralState, s.name ≠ "Resetting" ∧ s.name ≠ "Unsupported" ∧
      s.name ≠ "Unauthorized") ∧
    (∀ s : ApiCentralState,
      s = .Unknown ∨ s = .PoweredOn ∨ s = .PoweredOff) := by
  refine ⟨rfl, rfl, rfl, ?_, ?_⟩ <;>
    intro s <;> cases s <;> simp [ApiCentralState.name]

/-! ## Claim C10 -/

/-- C10: among the events a discovery callback emits there is exactly one
`ManufacturerDataAdvertisement` when the advertisement dictionary holds
manufacturer data of at least two bytes — its `manufacturer_id` is the
first two bytes read as a little-endian `u16` and its payload is the
remaining bytes — and none at all when the manufacturer data is absent or
shorter than two bytes (silent drop). -/
theorem manufacturer_data_event_exactly_once (server : Uuid)
    (adv : AdvData) (rssi : Int) :
    (did_discover_peripheral server adv rssi).filter
        CentralEventM.isManufacturerData =
      match adv.manufacturer_data with
      | some (b0 :: b1 :: rest) =>
          [CentralEventM.manufacturerDataAdvertisement server
            (u16_from_le_bytes b0 b1) rest]
      | _ => [] := by
  rcases adv with ⟨ln, md, sd, su⟩
  rcases md with _ | ⟨_ | ⟨b0, _ | ⟨b1, rest⟩⟩⟩ <;>
    rcases sd with _ | sd <;> rcases su with _ | su <;>
      simp [did_discover_peripheral, CentralEventM.isManufacturerData]

/-! ## Claim C3 -/

/-- C3: the claim says the "connection ready" signal fires exactly once
when the session first becomes fully discovered.  In the code,
`Peripheral::check_discovered` computes the service-tree snapshot and
drops it without sending anything: evaluated at a fully-discovered state
(one service 5, its characteristic 6 with descriptors recorded, delegate
no longer waiting) holding a waiting connect caller (sender 9), it sends
no reply at all and leaves the state unchanged — and a second evaluation
behaves identically.  The ready signal fires zero times, never once. -/
theorem ready_signal_never_fires :
    check_discovered
        ⟨[], [(5, ⟨true, [(6, ⟨[0], [7], [], [], [], []⟩)]⟩)], none,
          some 9, [], [], [], [], []⟩ 5 =
      .ok (⟨[], [(5, ⟨true, [(6, ⟨[0], [7], [], [], [], []⟩)]⟩)], none,
          some 9, [], [], [], [], []⟩, []) := by
  rfl

/-! ## Claim C4 -/

/-- C4: the claim says a disconnect resolves all N outstanding pending
operations with a disconnected failure and leaves the registry empty.
`Peripheral::confirm_disconnect` never touches the resolver maps the
`Peripheral` struct actually declares: at a state with four outstanding
entries (characteristic-discovery sender 20, read sender 21, write sender
22, subscribe sender 23), it sends zero replies and returns the state
with all four entries still registered — `count() == 4`, every waiter
left unresolved. -/
theorem disconnect_leaves_registry_entries :
    confirm_disconnect
        ⟨[], [], none, none, [(5, 20)], [], [(6, 21)], [(6, 22)],
          [(6, 23)]⟩ =
      (⟨[], [], none, none, [(5, 20)], [], [(6, 21)], [(6, 22)],
        [(6, 23)]⟩, []) ∧
    (confirm_disconnect ⟨[], [], none, none, [(5, 20)], [], [(6, 21)],
        [(6, 22)], [(6, 23)]⟩).1.characteristic_discovery_resolver.length +
      (confirm_disconnect ⟨[], [], none, none, [(5, 20)], [], [(6, 21)],
        [(6, 22)], [(6, 23)]⟩).1.read_resolver.length +
      (confirm_disconnect ⟨[], [], none, none, [(5, 20)], [], [(6, 21)],
        [(6, 22)], [(6, 23)]⟩).1.write_resolver.length +
      (confirm_disconnect ⟨[], [], none, none, [(5, 20)], [], [(6, 21)],
        [(6, 22)], [(6, 23)]⟩).1.subscribe_resolver.length = 4 := by
  refine ⟨rfl, rfl⟩

/-! ## Claim C9 -/

theorem valLE_nil : valLE [] = 0 := rfl

theorem valLE_cons (d : Nat) (ds : List Nat) :
    valLE (d :: ds) = d + 16 * valLE ds := rfl

theorem hexLE_length (w n : Nat) : (hexLE w n).length = w := by
  induction w generalizing n with
  | zero => rfl
  | succ w ih => simp [hexLE, ih]

theorem hexLE_all_lt (w n : Nat) : ∀ d ∈ hexLE w n, d < 16 := by
  induction w generalizing n with
  | zero => intro d hd; simp [hexLE] at hd
  | succ w ih =>
      intro d hd
      simp only [hexLE, List.mem_cons] at hd
      rcases hd with h | h
      · subst h; exact Nat.mod_lt _ (by norm_num)
      · exact ih _ d h

theorem valLE_hexLE (w n : Nat) (h : n < 16 ^ w) : valLE (hexLE w n) = n := by
  induction w generalizing n with
  | zero =>
      have : n = 0 := Nat.lt_one_iff.mp (by simpa using h)
      subst this; rfl
  | succ w ih =>
      have hdiv : n / 16 < 16 ^ w := by
        rw [Nat.div_lt_iff_lt_mul (by norm_num)]
        calc n < 16 ^ (w + 1) := h
          _ = 16 ^ w * 16 := by ring
      rw [hexLE, valLE_cons, ih _ hdiv, Nat.mod_add_div]

theorem valLE_append (xs ys : List Nat) :
    valLE (xs ++ ys) = valLE xs + 16 ^ xs.length * valLE ys := by
  induction xs with
  | nil => simp [valLE_nil]
  | cons d xs ih =>
      simp only [List.cons_append, valLE_cons, ih, List.length_cons,
        pow_succ]
      ring

theorem hexBE_length (w n : Nat) : (hexBE w n).length = w := by
  simp [hexBE, hexLE_length]

theorem hexBE_all_lt (w n : Nat) : ∀ d ∈ hexBE w n, d < 16 := by
  intro d hd
  exact hexLE_all_lt w n d (List.mem_reverse.mp hd)

theorem valBE_hexBE (w n : Nat) (h : n < 16 ^ w) : valBE (hexBE w n) = n := by
  rw [valBE, hexBE, List.reverse_reverse]
  exact valLE_hexLE w n h

theorem valBE_append (xs ys : List Nat) :
    valBE (xs ++ ys) = 16 ^ ys.length * valBE xs + valBE ys := by
  rw [valBE, List.reverse_append, valLE_append]
  simp [valBE, List.length_reverse]
  ring

theorem base96Digits_spec :
    valBE base96Digits = BLUETOOTH_BASE_LOWER_96 ∧
    base96Digits.length = 24 ∧ ∀ d ∈ base96Digits, d < 16 := by
  refine ⟨by decide, by decide, by decide⟩

theorem parse_str_canonical (u : Nat) (h : u < 2 ^ 128) :
    parse_str (hexBE 32 u) = some u := by
  have h16 : u < 16 ^ 32 := by
    calc u < 2 ^ 128 := h
      _ = 16 ^ 32 := by norm_num
  unfold parse_str
  rw [if_pos ⟨hexBE_length 32 u, List.all_eq_true.mpr
    (fun d hd => by simpa using hexBE_all_lt 32 u d hd)⟩]
  rw [valBE_hexBE 32 u h16]

theorem parse_str_expanded_short (pad : List Nat) (w a : Nat)
    (hw : pad.length + w = 8) (hpadval : valBE pad = 0)
    (hpadlt : ∀ d ∈ pad, d < 16) (ha : a < 16 ^ w) :
    parse_str (pad ++ hexBE w a ++ base96Digits) =
      some (a * 2 ^ 96 + BLUETOOTH_BASE_LOWER_96) := by
  unfold parse_str
  rw [if_pos ?cond]
  case cond =>
    constructor
    · simp only [List.length_append, hexBE_length]
      have : base96Digits.length = 24 := base96Digits_spec.2.1
      omega
    · rw [List.all_eq_true]
      intro d hd
      simp only [List.mem_append] at hd
      rcases hd with (hd | hd) | hd
      · simpa using hpadlt d hd
      · simpa using hexBE_all_lt w a d hd
      · simpa using base96Digits_spec.2.2 d hd
  have h24 : base96Digits.length = 24 := base96Digits_spec.2.1
  rw [List.append_assoc, valBE_append, valBE_append, hpadval,
    valBE_hexBE w a ha, base96Digits_spec.1, h24]
  have h1696 : (16 : Nat) ^ 24 = 2 ^ 96 := by norm_num
  rw [h1696, Nat.mul_zero, Nat.zero_add, Nat.mul_comm]

/-- C9: the short-UUID helpers round-trip — for every 128-bit UUID `u`,
`Uuid::from_string(u.to_short_string()) == u`.  A UUID whose lower 96
bits equal the Bluetooth base is shortened to its 4-hex-digit form
(assigned value `<= 0xFFFF`) or its 8-hex-digit form and re-expanded to
the identical UUID, and every other UUID passes through as its canonical
string unchanged; hence a resolver key registered under a service UUID is
found again when the native stack echoes that UUID's string back. -/
theorem short_uuid_round_trip (u : Nat) (h : u < 2 ^ 128) :
    from_string (to_short_string u) = some u := by
  simp only [to_short_string]
  by_cases hbase : u % 2 ^ 96 = BLUETOOTH_BASE_LOWER_96
  · rw [if_pos hbase]
    by_cases hshort : u / 2 ^ 96 ≤ 0xFFFF
    · rw [if_pos hshort]
      have hp : parse_str (hexBE 4 (u / 2 ^ 96)) = none := by
        unfold parse_str
        rw [if_neg]
        simp [hexBE_length]
      have ha : u / 2 ^ 96 < 16 ^ 4 := lt_of_le_of_lt hshort (by norm_num)
      have hfin := parse_str_expanded_short [0, 0, 0, 0] 4 (u / 2 ^ 96)
        (by simp [hexBE_length]) (by decide) (by decide) ha
      simp only [from_string, hp, hexBE_length]
      rw [if_pos trivial]
      rw [hfin, ← hbase]
      congr 1
      rw [Nat.mul_comm]
      exact Nat.div_add_mod u (2 ^ 96)
    · rw [if_neg hshort]
      have hp : parse_str (hexBE 8 (u / 2 ^ 96)) = none := by
        unfold parse_str
        rw [if_neg]
        simp [hexBE_length]
      have ha : u / 2 ^ 96 < 16 ^ 8 := by
        rw [Nat.div_lt_iff_lt_mul (by positivity)]
        calc u < 2 ^ 128 := h
          _ = 16 ^ 8 * 2 ^ 96 := by norm_num
      have hfin := parse_str_expanded_short [] 8 (u / 2 ^ 96)
        (by simp [hexBE_length]) (by decide) (by decide) ha
      simp only [List.nil_append] at hfin
      simp only [from_string, hp, hexBE_length]
      rw [if_neg (by norm_num), if_pos trivial]
      rw [hfin, ← hbase]
      congr 1
      rw [Nat.mul_comm]
      exact Nat.div_add_mod u (2 ^ 96)
  · rw [if_neg hbase]
    simp only [from_string, parse_str_canonical u h]

/-- C9, witness for `short_uuid_round_trip` at the UUID of the Bluetooth
Battery Service, `0000180f-0000-1000-8000-00805f9b34fb`. -/
theorem short_uuid_round_trip_witness :
    (0x0000180F00001000800000805F9B34FB : Nat) < 2 ^ 128 ∧
    from_string (to_short_string 0x0000180F00001000800000805F9B34FB) =
      some 0x0000180F00001000800000805F9B34FB :=
  ⟨by decide, short_uuid_round_trip 0x0000180F00001000800000805F9B34FB
    (by decide)⟩

end RustyCore
